import Mathlib

/-!
Shallow embedding of the apiserver receive adapter and its stats reporters
from the eventing repository. The opencensus tag, view and record machinery
is modelled as explicit state, the apiserver package stats reporter and the
adapter main are translated from the source, and the broker ingress reporter,
whose implementation file is absent from the sources with only its test
present, is modelled from the specification.
-/

namespace oc

/-- A tag key is identified by its name, as in opencensus tag.Key. -/
abbrev TagKey := String

/-- A tag map: association list from key to value, as in opencensus tag.Map. -/
abbrev TagMap := List (TagKey × String)

/-- tag.Insert semantics: inserts a value for the key only when the key is
absent from the map; an existing binding is left unchanged. -/
def tagInsert (k : TagKey) (v : String) (m : TagMap) : TagMap :=
  if m.any (fun p => p.1 == k) then m else (k, v) :: m

/-- Value of a key in a tag map. -/
def tagValue (m : TagMap) (k : TagKey) : Option String :=
  (m.find? (fun p => p.1 == k)).map (fun p => p.2)

/-- One recorded measurement: the measure name, the tag map of the recording
context and the measured value, as recorded by stats.Record through the
knative metrics.Record helper. -/
structure Observation where
  measure : String
  tags : TagMap
  value : Int
deriving DecidableEq, Repr

/-- The process wide list of recorded observations, in recording order. -/
abbrev MetricsState := List Observation

/-- metrics.Record appends one observation. -/
def record (st : MetricsState) (measure : String) (tags : TagMap) (v : Int) :
    MetricsState :=
  st ++ [⟨measure, tags, v⟩]

/-- Count aggregation of one measure for one exact tag set, as a view with
view.Count aggregation exposes it. -/
def countFor (st : MetricsState) (measure : String) (tags : TagMap) : Nat :=
  (st.filter (fun o => decide (o.measure = measure ∧ o.tags = tags))).length

/-- The observed values of one measure for one exact tag set, as a view with
a distribution aggregation collects them. -/
def valuesFor (st : MetricsState) (measure : String) (tags : TagMap) :
    List Int :=
  (st.filter (fun o => decide (o.measure = measure ∧ o.tags = tags))).map
    (fun o => o.value)

/-- The registered views: view name with its tag keys. -/
abbrev ViewRegistry := List (String × List TagKey)

/-- view.Register: opencensus rejects a view whose name is already registered
by a different view value, and every reporter construction builds a fresh
view value whose aggregation holds a fresh closure never equal to another, so
a second registration under an already registered name always errors, which
is what the repository test comments state. -/
def viewRegister (reg : ViewRegistry) (name : String) (tagKeys : List TagKey) :
    Except String ViewRegistry :=
  if reg.any (fun v => v.1 == name) then
    .error "a different view with the same name is already registered"
  else
    .ok ((name, tagKeys) :: reg)

end oc

namespace metricskey

/-- Label name constants of knative.dev pkg metricskey and of the eventing
metricskey package, both external to the sources; the claims rely only on
these names being pairwise distinct. -/
def LabelNamespaceName : String := "namespace_name"

def LabelEventType : String := "event_type"

def LabelEventSource : String := "event_source"

def LabelImporterName : String := "importer_name"

def LabelImporterResourceGroup : String := "importer_resource_group"

def Result : String := "result"

def LabelBrokerName : String := "broker_name"

def LabelResponseCode : String := "response_code"

def LabelResponseCodeClass : String := "response_code_class"

end metricskey

namespace apiserver

open oc

/-- ReportArgs of the apiserver package, as in the source. -/
structure ReportArgs where
  ns : String
  eventType : String
  eventSource : String
  apiServerImporter : String
deriving DecidableEq, Repr

/-- The fixed resource group tag value from the source. -/
def importerResourceGroupValue : String :=
  "apiserversources.sources.eventing.knative.dev"

/-- The reporter struct holding the cached tag keys, as in the source. -/
structure Reporter where
  namespaceTagKey : TagKey
  eventTypeTagKey : TagKey
  eventSourceTagKey : TagKey
  importerNameTagKey : TagKey
  importerResourceGroupTagKey : TagKey
  resultKey : TagKey
deriving DecidableEq, Repr

/-- The reporter record NewStatsReporter builds: tag.NewKey on these fixed
valid label names always succeeds and yields the key of that name, so the per
key error branches of the source are dead and the record is this constant. -/
def freshReporter : Reporter :=
  { namespaceTagKey := metricskey.LabelNamespaceName
    eventTypeTagKey := metricskey.LabelEventType
    eventSourceTagKey := metricskey.LabelEventSource
    importerNameTagKey := metricskey.LabelImporterName
    importerResourceGroupTagKey := metricskey.LabelImporterResourceGroup
    resultKey := metricskey.Result }

/-- The tag keys the source passes to view.Register for the event_count view,
in source order; the result key is absent from this list. -/
def eventCountViewTagKeys : List TagKey :=
  [freshReporter.namespaceTagKey, freshReporter.eventSourceTagKey,
   freshReporter.eventTypeTagKey, freshReporter.importerNameTagKey,
   freshReporter.importerResourceGroupTagKey]

/-- NewStatsReporter: builds the tag keys and registers the event_count view
with view.Count aggregation; a registration failure is returned as an error
and the reporter is returned otherwise. -/
def NewStatsReporter (reg : ViewRegistry) :
    Except String (Reporter × ViewRegistry) :=
  match viewRegister reg "event_count" eventCountViewTagKeys with
  | .error e => .error e
  | .ok reg2 => .ok (freshReporter, reg2)

/-- The test helper that unregisters the event_count view through
metricstest.Unregister, which removes the view by name. -/
def unregister (reg : ViewRegistry) : ViewRegistry :=
  reg.filter (fun v => !(v.1 == "event_count"))

/-- Modelled from the spec: the Result helper called by ReportEventCount
lives in an apiserver package file missing from the sources; per the spec the
result is derived as success when the passed delivery error is nil, else
failure. -/
def Result : Option String → String
  | none => "success"
  | some _ => "failure"

/-- generateTag: tag.New on a background context applying, in order, inserts
of the namespace, event source, event type and importer name from the args,
then the extra mutator t. Insert never fails on these opaque values, so the
result is always ok; the opencensus tag value validation is not modelled
since no claim involves an invalid tag value. -/
def generateTag (r : Reporter) (args : ReportArgs) (t : TagMap → TagMap) :
    Except String TagMap :=
  .ok (t (tagInsert r.importerNameTagKey args.apiServerImporter
    (tagInsert r.eventTypeTagKey args.eventType
      (tagInsert r.eventSourceTagKey args.eventSource
        (tagInsert r.namespaceTagKey args.ns [])))))

/-- ReportEventCount, translated from the source: a first generateTag call
computes a context carrying the result tag, but ctx is then reassigned by a
second generateTag call that starts again from the background context with
only the importer resource group mutator, exactly as the source reassigns
ctx, so the first context is discarded; the observation is recorded with the
second context only. -/
def ReportEventCount (r : Reporter) (args : ReportArgs) (e : Option String)
    (st : MetricsState) : Except String MetricsState := do
  let ctx ← generateTag r args (tagInsert r.resultKey (Result e))
  let ctx ← generateTag r args
    (tagInsert r.importerResourceGroupTagKey importerResourceGroupValue)
  return record st "event_count" ctx 1

/-- The tag map the recorded observation actually carries for given args: the
background context with namespace, event source, event type, importer name
and the constant importer resource group inserted. -/
def recordedTags (r : Reporter) (args : ReportArgs) : TagMap :=
  tagInsert r.importerResourceGroupTagKey importerResourceGroupValue
    (tagInsert r.importerNameTagKey args.apiServerImporter
      (tagInsert r.eventTypeTagKey args.eventType
        (tagInsert r.eventSourceTagKey args.eventSource
          (tagInsert r.namespaceTagKey args.ns []))))

/-- The args value used by the repository test TestStatsReporter. -/
def testArgs : ReportArgs :=
  { ns := "testns"
    eventType := "dev.knative.apiserver.ref.delete"
    eventSource := "unit-test"
    apiServerImporter := "" }

/-- Repeated sequential ReportEventCount calls with one fixed args value and
one fixed error value, threading the metrics state. -/
def reportN (args : ReportArgs) (e : Option String) :
    Nat → MetricsState → MetricsState
  | 0, st => st
  | n + 1, st =>
    match ReportEventCount freshReporter args e st with
    | .ok st2 => reportN args e n st2
    | .error _ => st

/-- The state after the two nil error reports of the repository test. -/
def afterTwoSuccessReports : MetricsState := reportN testArgs none 2 []

/-- The args value of the repository test with empty event type and source. -/
def emptyArgs : ReportArgs :=
  { ns := "testns", eventType := "", eventSource := "", apiServerImporter := "" }

end apiserver

namespace ingress

open oc

/-- Modelled from the spec: the ingress stats reporter implementation in
pkg/broker/ingress/stats_reporter.go is absent from the sources, only its
test is present; per the spec its ReportArgs keys an observation by
namespace, broker, event type and event source. -/
structure ReportArgs where
  ns : String
  broker : String
  eventType : String
  eventSource : String
deriving DecidableEq, Repr

/-- Modelled from the spec: the response code class string of a status code,
for example 202 yields 2xx. -/
def responseCodeClass (code : Nat) : String :=
  toString (code / 100) ++ "xx"

/-- Modelled from the spec: the tag set of the ingress reporter, namespace,
broker, event type and event source from the args, additionally tagged by
the numeric status code and its class. -/
def dispatchTags (args : ReportArgs) (code : Nat) : TagMap :=
  [(metricskey.LabelNamespaceName, args.ns),
   (metricskey.LabelBrokerName, args.broker),
   (metricskey.LabelEventType, args.eventType),
   (metricskey.LabelEventSource, args.eventSource),
   (metricskey.LabelResponseCode, toString code),
   (metricskey.LabelResponseCodeClass, responseCodeClass code)]

/-- Modelled from the spec: ReportEventCount of the ingress reporter
increments the event_count counter view under the tag set above. -/
def ReportEventCount (args : ReportArgs) (code : Nat) (st : MetricsState) :
    Except String MetricsState :=
  .ok (record st "event_count" (dispatchTags args code) 1)

/-- Modelled from the spec: ReportEventDispatchTime records the duration, in
milliseconds, into the event_dispatch_latencies distribution view under the
same tag set. -/
def ReportEventDispatchTime (args : ReportArgs) (code : Nat)
    (durationMs : Int) (st : MetricsState) : Except String MetricsState :=
  .ok (record st "event_dispatch_latencies" (dispatchTags args code)
    durationMs)

/-- The state after the two dispatch time reports of the repository test:
durations of 1100 and 9100 milliseconds with identical tags. -/
def reportTwiceDispatch (args : ReportArgs) (code : Nat) : MetricsState :=
  match ReportEventDispatchTime args code 1100 [] with
  | .ok st1 =>
    match ReportEventDispatchTime args code 9100 st1 with
    | .ok st2 => st2
    | .error _ => st1
  | .error _ => []

/-- The state after the two event count reports of the repository test, both
with status 202. -/
def reportTwiceCount (args : ReportArgs) : MetricsState :=
  match ReportEventCount args 202 [] with
  | .ok st1 =>
    match ReportEventCount args 202 st1 with
    | .ok st2 => st2
    | .error _ => st1
  | .error _ => []

end ingress

namespace cmd

/-- schema.GroupVersion of the apimachinery dependency. -/
structure GroupVersion where
  group : String
  version : String
deriving DecidableEq, Repr

/-- Splits a character list at each slash; structural helper for the group
version parser. -/
def splitSlashAux : List Char → List Char → List (List Char)
  | [], acc => [acc.reverse]
  | c :: rest, acc =>
    if c = '/' then acc.reverse :: splitSlashAux rest []
    else splitSlashAux rest (c :: acc)

/-- The slash separated components of a string. -/
def splitSlash (s : String) : List String :=
  (splitSlashAux s.toList []).map (fun cs => String.mk cs)

/-- schema.ParseGroupVersion, translated from the vendored apimachinery
dependency: the empty string and the bare slash parse to empty group and
version, no slash means a bare version, one slash splits group from version,
and more than one slash is an error. -/
def ParseGroupVersion (gv : String) : Except String GroupVersion :=
  if gv.length == 0 || gv == "/" then .ok ⟨"", ""⟩
  else
    match splitSlash gv with
    | [v] => .ok ⟨"", v⟩
    | [g, v] => .ok ⟨g, v⟩
    | _ => .error ("unexpected GroupVersion string: " ++ gv)

/-- schema.GroupVersionKind of the apimachinery dependency. -/
structure GroupVersionKind where
  group : String
  version : String
  kind : String
deriving DecidableEq, Repr

/-- schema.GroupVersionResource of the apimachinery dependency. -/
structure GroupVersionResource where
  group : String
  version : String
  resource : String
deriving DecidableEq, Repr

/-- The characters of a string, lower cased. -/
def lowerChars (s : String) : List Char :=
  s.toList.map Char.toLower

/-- Whether a character list ends with the given character. -/
def endsWithChar (cs : List Char) (c : Char) : Bool :=
  match cs.getLast? with
  | some d => d == c
  | none => false

/-- meta.UnsafeGuessKindToResource, plural form, translated from the vendored
apimachinery dependency: lower cases the kind and pluralizes by suffix, the
suffix endpoints stays unchanged, a trailing s takes es, a trailing y becomes
ies, anything else takes s; it cannot fail, and the source discards its
second result. -/
def UnsafeGuessKindToResource (gvk : GroupVersionKind) :
    GroupVersionResource :=
  if gvk.kind.length == 0 then ⟨"", "", ""⟩
  else
    let singularName := lowerChars gvk.kind
    if "endpoints".toList.isSuffixOf singularName then
      ⟨gvk.group, gvk.version, String.mk singularName⟩
    else if endsWithChar singularName 's' then
      ⟨gvk.group, gvk.version, String.mk (singularName ++ ['e', 's'])⟩
    else if endsWithChar singularName 'y' then
      ⟨gvk.group, gvk.version,
       String.mk (singularName.dropLast ++ ['i', 'e', 's'])⟩
    else
      ⟨gvk.group, gvk.version, String.mk (singularName ++ ['s'])⟩

/-- apiserver.GVRC: a group version resource together with the controller
flag, as built by the adapter main. -/
structure GVRC where
  GVR : GroupVersionResource
  Controller : Bool
deriving DecidableEq, Repr

/-- The environment configuration fields the adapter main consumes; the
remaining ones do not influence the modelled control flow and are carried as
opaque strings. -/
structure EnvConfig where
  Namespace : String
  Mode : String
  SinkURI : String
  ApiVersion : List String
  Kind : List String
  Controller : List Bool
  ApiServerImporter : String
deriving Repr

/-- Outcome of the descriptor building loop of main: a Go index out of range
run time failure, a fatal log exit, or the built list. -/
inductive BuildResult where
  | panicked
  | fatal
  | ok (gvrcs : List GVRC)
deriving DecidableEq, Repr

/-- The main loop over ApiVersion, translated from the source: for each entry
the loop first indexes Kind then Controller, each out of range being a run
time failure, then parses the group version, a parse failure being a fatal
log, then guesses the resource, whose second result the source discards, and
appends the GVRC. -/
def buildGVRCs : List String → List String → List Bool → BuildResult
  | [], _, _ => .ok []
  | _ :: _, [], _ => .panicked
  | _ :: _, _ :: _, [] => .panicked
  | apiVersion :: avs, kind :: ks, controlled :: cs =>
    match ParseGroupVersion apiVersion with
    | .error _ => .fatal
    | .ok gv =>
      match buildGVRCs avs ks cs with
      | .ok rest =>
        .ok ({ GVR := UnsafeGuessKindToResource
                 { kind := kind, group := gv.group, version := gv.version },
               Controller := controlled } :: rest)
      | r => r

/-- The outcomes of the external calls main makes, supplied as inputs to the
modelled run. -/
structure World where
  envErr : Option String
  env : EnvConfig
  loggingParseErr : Option String
  loggingFallbackErr : Option String
  metricsParseErr : Option String
  updateExporterErr : Option String
  buildConfigErr : Option String
  dynamicClientErr : Option String
  tracingErr : Option String
  cloudEventsErr : Option String
  startErr : Option String
deriving Repr

/-- How the adapter process run ends. -/
inductive MainOutcome where
  | panicked
  | fatalError
  | ranAdapter
deriving DecidableEq, Repr

/-- Process exit status of each outcome: a Go run time failure exits 2, a
logger.Fatal call exits 1, a normal return from main exits 0. -/
def exitCode : MainOutcome → Nat
  | .panicked => 2
  | .fatalError => 1
  | .ranAdapter => 0

/-- The adapter main, translated from the source in call order: env parsing
failure is a run time failure; a logging config parse failure falls back to
the default config, failing only when that also fails; a metrics options
parse failure is only logged, but the following UpdateExporter call then
dereferences the nil options pointer, a run time failure; exporter,
kubeconfig, dynamic client and cloud events client failures are fatal logs,
as is a NewStatsReporter failure; a tracing setup failure is only logged;
then the descriptor loop runs, and when it yields the list the adapter is
constructed and Start is invoked, whose error is only logged at warning
level before main returns normally. -/
def mainRun (w : World) : MainOutcome :=
  if w.envErr.isSome then .panicked
  else if w.loggingParseErr.isSome && w.loggingFallbackErr.isSome then
    .panicked
  else if w.metricsParseErr.isSome then .panicked
  else if w.updateExporterErr.isSome then .fatalError
  else if !(apiserver.NewStatsReporter []).isOk then .fatalError
  else if w.buildConfigErr.isSome then .fatalError
  else if w.dynamicClientErr.isSome then .fatalError
  else if w.cloudEventsErr.isSome then .fatalError
  else
    match buildGVRCs w.env.ApiVersion w.env.Kind w.env.Controller with
    | .panicked => .panicked
    | .fatal => .fatalError
    | .ok _ => .ranAdapter

/-- A run in which every startup step succeeds and Start fails. -/
def startFailWorld : World :=
  { envErr := none
    env := { Namespace := "default", Mode := "", SinkURI := "http://sink",
             ApiVersion := ["v1"], Kind := ["Pod"], Controller := [false],
             ApiServerImporter := "importer" }
    loggingParseErr := none
    loggingFallbackErr := none
    metricsParseErr := none
    updateExporterErr := none
    buildConfigErr := none
    dynamicClientErr := none
    tracingErr := none
    cloudEventsErr := none
    startErr := some "dial tcp: connection refused" }

/-- A run whose configuration has one apiVersion entry but two kinds and two
controller flags, every external call succeeding. -/
def mismatchedWorld : World :=
  { startFailWorld with
    env := { Namespace := "default", Mode := "", SinkURI := "http://sink",
             ApiVersion := ["v1"], Kind := ["Pod", "Foo"],
             Controller := [false, false], ApiServerImporter := "importer" }
    startErr := none }

/-- A run whose single apiVersion entry has two slashes and cannot parse,
every external call succeeding. -/
def badParseWorld : World :=
  { startFailWorld with
    env := { Namespace := "default", Mode := "", SinkURI := "http://sink",
             ApiVersion := ["bad/worse/worst"], Kind := ["Foo"],
             Controller := [true], ApiServerImporter := "importer" }
    startErr := none }

/-- A run whose configuration has two apiVersion entries but only one kind,
every external call succeeding. -/
def shortKindWorld : World :=
  { startFailWorld with
    env := { Namespace := "default", Mode := "", SinkURI := "http://sink",
             ApiVersion := ["v1", "v1"], Kind := ["Pod"],
             Controller := [true, true], ApiServerImporter := "importer" }
    startErr := none }

end cmd

/-! Theorems. -/

namespace oc

/-- Appending one observation raises the count of its exact tag set by one
and leaves every other count unchanged. -/
theorem countFor_append (st : MetricsState) (o : Observation) (m : String)
    (t : TagMap) :
    countFor (st ++ [o]) m t =
      countFor st m t + (if o.measure = m ∧ o.tags = t then 1 else 0) := by
  unfold countFor
  rw [List.filter_append, List.length_append]
  by_cases h : o.measure = m ∧ o.tags = t
  · simp [h]
  · simp [h]

end oc

namespace apiserver

open oc

/-- Claim C1: the claim says every ReportEventCount observation carries a
result tag valued success or failure besides the namespace, event source,
event type, importer name and resource group tags. On the code the first
generated context, the only one carrying the result tag, is discarded when
ctx is reassigned, and the registered view tag keys omit the result key: at
the failing input, the test args with a nil error, the recorded observation
carries the five other tags but no result tag at all. -/
theorem reportEventCount_drops_result_tag :
    ReportEventCount freshReporter testArgs none [] =
      .ok [⟨"event_count", recordedTags freshReporter testArgs, 1⟩] ∧
    tagValue (recordedTags freshReporter testArgs) freshReporter.resultKey =
      none ∧
    tagValue (recordedTags freshReporter testArgs)
      freshReporter.namespaceTagKey = some "testns" ∧
    tagValue (recordedTags freshReporter testArgs)
      freshReporter.eventSourceTagKey = some "unit-test" ∧
    tagValue (recordedTags freshReporter testArgs)
      freshReporter.eventTypeTagKey =
      some "dev.knative.apiserver.ref.delete" ∧
    tagValue (recordedTags freshReporter testArgs)
      freshReporter.importerNameTagKey = some "" ∧
    tagValue (recordedTags freshReporter testArgs)
      freshReporter.importerResourceGroupTagKey =
      some importerResourceGroupValue ∧
    ¬ freshReporter.resultKey ∈ eventCountViewTagKeys := by
  refine ⟨rfl, rfl, rfl, rfl, rfl, rfl, rfl, ?_⟩
  decide

/-- Claim C5 counterexample: after two ReportEventCount calls with a nil
error from a fresh state, two observations exist, none of them carries any
result tag, and the count of the claimed tag set, the recorded tags extended
with result success, is 0 and not 2. -/
theorem no_success_tagset_counterexample :
    afterTwoSuccessReports.length = 2 ∧
    (afterTwoSuccessReports.filter
      (fun o => (tagValue o.tags metricskey.Result).isSome)).length = 0 ∧
    countFor afterTwoSuccessReports "event_count"
      (tagInsert freshReporter.resultKey "success"
        (recordedTags freshReporter testArgs)) = 0 := by
  refine ⟨rfl, rfl, rfl⟩

/-- Claim C5 amended: N sequential ReportEventCount calls with one fixed args
value and one fixed error value increment the event_count counter of the tag
set actually recorded, namespace, event source, event type, importer name and
the constant resource group with no result tag, by exactly N from any
starting state. -/
theorem reportEventCount_increments_by_n (args : ReportArgs)
    (e : Option String) (n : Nat) (st : MetricsState) :
    countFor (reportN args e n st) "event_count"
        (recordedTags freshReporter args) =
      countFor st "event_count" (recordedTags freshReporter args) + n ∧
    tagValue (recordedTags freshReporter args) freshReporter.resultKey =
      none := by
  refine ⟨?_, rfl⟩
  induction n generalizing st with
  | zero => rfl
  | succ k ih =>
    rw [show reportN args e (k + 1) st =
        reportN args e k (st ++
          [⟨"event_count", recordedTags freshReporter args, 1⟩]) from rfl]
    rw [ih]
    rw [countFor_append]
    simp
    omega

/-- Claim C5 witness: two calls with a nil error add exactly 2 to the
recorded tag set count. -/
theorem reportEventCount_increments_by_n_witness :
    countFor (reportN testArgs none 2 []) "event_count"
        (recordedTags freshReporter testArgs) =
      countFor [] "event_count" (recordedTags freshReporter testArgs) + 2 ∧
    tagValue (recordedTags freshReporter testArgs)
      freshReporter.resultKey = none :=
  reportEventCount_increments_by_n testArgs none 2 []

/-- Claim C6: a first NewStatsReporter call on the empty registry succeeds
and registers the event_count view; a second call on the resulting registry
errors because the name is already registered; after the explicit unregister
a further call succeeds again. -/
theorem view_registration_exactly_once :
    NewStatsReporter [] =
      .ok (freshReporter, [("event_count", eventCountViewTagKeys)]) ∧
    (NewStatsReporter [("event_count", eventCountViewTagKeys)]).isOk =
      false ∧
    NewStatsReporter (unregister [("event_count", eventCountViewTagKeys)]) =
      .ok (freshReporter, [("event_count", eventCountViewTagKeys)]) := by
  refine ⟨rfl, rfl, rfl⟩

/-- Claim C9: a reporter built by NewStatsReporter records, on every
ReportEventCount call, exactly one observation, and its importer resource
group tag always carries the fixed constant value. -/
theorem resource_group_tag_constant (reg reg2 : ViewRegistry) (r : Reporter)
    (h : NewStatsReporter reg = .ok (r, reg2)) (args : ReportArgs)
    (e : Option String) (st : MetricsState) :
    ReportEventCount r args e st =
      .ok (st ++ [⟨"event_count", recordedTags r args, 1⟩]) ∧
    tagValue (recordedTags r args) r.importerResourceGroupTagKey =
      some importerResourceGroupValue := by
  have hr : r = freshReporter := by
    unfold NewStatsReporter at h
    split at h
    · simp at h
    · simp only [Except.ok.injEq, Prod.mk.injEq] at h
      exact h.1.symm
  subst hr
  exact ⟨rfl, rfl⟩

/-- Claim C9 witness at the test args with a nil error. -/
theorem resource_group_tag_constant_witness :
    ReportEventCount freshReporter testArgs none [] =
      .ok ([] ++ [⟨"event_count", recordedTags freshReporter testArgs, 1⟩]) ∧
    tagValue (recordedTags freshReporter testArgs)
      freshReporter.importerResourceGroupTagKey =
      some importerResourceGroupValue :=
  resource_group_tag_constant [] [("event_count", eventCountViewTagKeys)]
    freshReporter rfl testArgs none []

/-- Claim C10 counterexample: with empty event type and event source the call
succeeds, but the observation records both tags as the verbatim empty
string; the count accrues to the tag set holding the empty string values, so
it is recorded under the empty string and not under a distinct wildcard
value. -/
theorem empty_source_recorded_under_empty_string :
    (ReportEventCount freshReporter emptyArgs none []).isOk = true ∧
    tagValue (recordedTags freshReporter emptyArgs)
      freshReporter.eventSourceTagKey = some "" ∧
    tagValue (recordedTags freshReporter emptyArgs)
      freshReporter.eventTypeTagKey = some "" ∧
    countFor ((ReportEventCount freshReporter emptyArgs none
        []).toOption.getD [])
      "event_count" (recordedTags freshReporter emptyArgs) = 1 := by
  refine ⟨rfl, rfl, rfl, rfl⟩

/-- Claim C10 amended: for args whose event type and event source are empty,
ReportEventCount succeeds and the observation carries the verbatim empty
string for both tags; generateTag inserts the args values unchanged, with no
wildcard substitution. -/
theorem empty_source_type_recorded_verbatim (args : ReportArgs)
    (ht : args.eventType = "") (hs : args.eventSource = "")
    (e : Option String) (st : MetricsState) :
    ReportEventCount freshReporter args e st =
      .ok (st ++ [⟨"event_count", recordedTags freshReporter args, 1⟩]) ∧
    tagValue (recordedTags freshReporter args)
      freshReporter.eventSourceTagKey = some "" ∧
    tagValue (recordedTags freshReporter args)
      freshReporter.eventTypeTagKey = some "" := by
  obtain ⟨n, t, s, i⟩ := args
  dsimp only at ht hs
  subst ht
  subst hs
  exact ⟨rfl, rfl, rfl⟩

/-- Claim C10 amended witness at the test args with empty type and source. -/
theorem empty_source_type_recorded_verbatim_witness :
    ReportEventCount freshReporter emptyArgs none [] =
      .ok ([] ++
        [⟨"event_count", recordedTags freshReporter emptyArgs, 1⟩]) ∧
    tagValue (recordedTags freshReporter emptyArgs)
      freshReporter.eventSourceTagKey = some "" ∧
    tagValue (recordedTags freshReporter emptyArgs)
      freshReporter.eventTypeTagKey = some "" :=
  empty_source_type_recorded_verbatim emptyArgs rfl rfl none []

end apiserver

namespace ingress

open oc

/-- The ingress args value used by the repository test. -/
def ingressTestArgs : ReportArgs :=
  { ns := "testns", broker := "testbroker", eventType := "testeventtype",
    eventSource := "testeventsource" }

/-- Claim C7: for every fixed args value and status code, recording dispatch
times of 1100 and 9100 milliseconds with identical tags from a fresh state
yields an event_dispatch_latencies distribution for that exact tag set with
count 2 whose observed values are exactly 1100 and 9100. -/
theorem dispatch_time_distribution_two_values (args : ReportArgs)
    (code : Nat) :
    countFor (reportTwiceDispatch args code) "event_dispatch_latencies"
      (dispatchTags args code) = 2 ∧
    valuesFor (reportTwiceDispatch args code) "event_dispatch_latencies"
      (dispatchTags args code) = [1100, 9100] := by
  have hst : reportTwiceDispatch args code =
      [⟨"event_dispatch_latencies", dispatchTags args code, 1100⟩,
       ⟨"event_dispatch_latencies", dispatchTags args code, 9100⟩] := rfl
  rw [hst]
  constructor <;> simp [countFor, valuesFor]

/-- Claim C7 witness at the args and status code of the repository test. -/
theorem dispatch_time_distribution_two_values_witness :
    countFor (reportTwiceDispatch ingressTestArgs 202)
      "event_dispatch_latencies" (dispatchTags ingressTestArgs 202) = 2 ∧
    valuesFor (reportTwiceDispatch ingressTestArgs 202)
      "event_dispatch_latencies" (dispatchTags ingressTestArgs 202) =
      [1100, 9100] :=
  dispatch_time_distribution_two_values ingressTestArgs 202

/-- Claim C8: for every args value, with every delivery returning status 202,
the recording tag set carries response code 202 and response code class 2xx,
and delivering 2 events yields an event_count of exactly 2 for that exact
tag set. -/
theorem event_count_202_tags_and_count (args : ReportArgs) :
    tagValue (dispatchTags args 202) metricskey.LabelResponseCode =
      some "202" ∧
    tagValue (dispatchTags args 202) metricskey.LabelResponseCodeClass =
      some "2xx" ∧
    countFor (reportTwiceCount args) "event_count"
      (dispatchTags args 202) = 2 := by
  refine ⟨rfl, rfl, ?_⟩
  have hst : reportTwiceCount args =
      [⟨"event_count", dispatchTags args 202, 1⟩,
       ⟨"event_count", dispatchTags args 202, 1⟩] := rfl
  rw [hst]
  simp [countFor]

/-- Claim C8 witness at the args of the repository test. -/
theorem event_count_202_tags_and_count_witness :
    tagValue (dispatchTags ingressTestArgs 202)
      metricskey.LabelResponseCode = some "202" ∧
    tagValue (dispatchTags ingressTestArgs 202)
      metricskey.LabelResponseCodeClass = some "2xx" ∧
    countFor (reportTwiceCount ingressTestArgs) "event_count"
      (dispatchTags ingressTestArgs 202) = 2 :=
  event_count_202_tags_and_count ingressTestArgs

end ingress

namespace cmd

/-- NewStatsReporter succeeds at process start, when the registry is empty. -/
theorem statsReporterOkAtStart : (apiserver.NewStatsReporter []).isOk =
    true := rfl

/-- A run reaching the adapter construction and Start needs the descriptor
loop to have produced a list. -/
theorem mainRun_ran_needs_build_ok (w : World)
    (h : mainRun w = .ranAdapter) :
    ∃ l, buildGVRCs w.env.ApiVersion w.env.Kind w.env.Controller = .ok l := by
  unfold mainRun at h
  repeat' split at h
  all_goals
    first
      | exact absurd h (by decide)
      | (rename_i l hb; exact ⟨l, hb⟩)

/-- When the kind or controller list is strictly shorter than the apiVersion
list, the loop never produces a list: it stops at an out of range index or at
an earlier fatal parse failure. -/
theorem buildGVRCs_not_ok_of_short (avs ks : List String) (cs : List Bool)
    (h : ks.length < avs.length ∨ cs.length < avs.length) :
    ∀ l, buildGVRCs avs ks cs ≠ .ok l := by
  induction avs generalizing ks cs with
  | nil => rcases h with h | h <;> simp at h
  | cons a as ih =>
    intro l
    cases ks with
    | nil => simp [buildGVRCs]
    | cons k ks =>
      cases cs with
      | nil => simp [buildGVRCs]
      | cons c cs =>
        have h2 : ks.length < as.length ∨ cs.length < as.length := by
          rcases h with h | h
          · exact Or.inl (by simpa using h)
          · exact Or.inr (by simpa using h)
        cases hpv : ParseGroupVersion a with
        | error err => simp [buildGVRCs, hpv]
        | ok gv =>
          cases hb : buildGVRCs as ks cs with
          | panicked => simp [buildGVRCs, hpv, hb]
          | fatal => simp [buildGVRCs, hpv, hb]
          | ok rest =>
            exact absurd hb (ih ks cs h2 rest)

/-- When the three lists have equal length and some apiVersion entry fails to
parse, the loop ends in the fatal outcome. -/
theorem buildGVRCs_fatal_of_parse_error (avs ks : List String)
    (cs : List Bool) (hk : ks.length = avs.length)
    (hc : cs.length = avs.length) (v : String) (hv : v ∈ avs)
    (he : (ParseGroupVersion v).isOk = false) :
    buildGVRCs avs ks cs = .fatal := by
  induction avs generalizing ks cs with
  | nil => cases hv
  | cons a as ih =>
    cases ks with
    | nil => simp at hk
    | cons k ks =>
      cases cs with
      | nil => simp at hc
      | cons c cs =>
        simp only [List.length_cons, Nat.add_right_cancel_iff] at hk hc
        rcases List.mem_cons.mp hv with rfl | hmem
        · cases hpv : ParseGroupVersion v with
          | ok gv => rw [hpv] at he; simp [Except.isOk, Except.toBool] at he
          | error err => simp [buildGVRCs, hpv]
        · cases hpv : ParseGroupVersion a with
          | error err => simp [buildGVRCs, hpv]
          | ok gv =>
            have hrec := ih ks cs hk hc hmem
            simp [buildGVRCs, hpv, hrec]

/-- Claim C2 counterexample: a run in which every startup step succeeds and
Start returns a non nil error ends with main returning normally, exit status
zero, refuting the claim that the process terminates with a non zero exit
status. -/
theorem start_error_exits_zero_counterexample :
    startFailWorld.startErr = some "dial tcp: connection refused" ∧
    mainRun startFailWorld = .ranAdapter ∧
    exitCode (mainRun startFailWorld) = 0 := by
  refine ⟨rfl, rfl, rfl⟩

/-- Claim C2 amended: when startup reaches Start, a non nil error returned by
Start is only logged at warning level and main returns normally with exit
status zero; non zero exits arise only from failures before Start. -/
theorem start_error_warned_exit_zero (w : World) (e : String)
    (h1 : w.envErr = none)
    (h2 : w.loggingParseErr = none ∨ w.loggingFallbackErr = none)
    (h3 : w.metricsParseErr = none) (h4 : w.updateExporterErr = none)
    (h5 : w.buildConfigErr = none) (h6 : w.dynamicClientErr = none)
    (h7 : w.cloudEventsErr = none)
    (h8 : ∃ l, buildGVRCs w.env.ApiVersion w.env.Kind w.env.Controller =
      .ok l)
    (h9 : w.startErr = some e) :
    mainRun w = .ranAdapter ∧ exitCode (mainRun w) = 0 := by
  obtain ⟨l, hl⟩ := h8
  have hm : mainRun w = .ranAdapter := by
    unfold mainRun
    rcases h2 with h2 | h2 <;>
      simp [h1, h2, h3, h4, h5, h6, h7, hl, statsReporterOkAtStart]
  exact ⟨hm, by rw [hm]; rfl⟩

/-- Claim C2 amended witness at a concrete failing Start. -/
theorem start_error_warned_exit_zero_witness :
    mainRun startFailWorld = .ranAdapter ∧
    exitCode (mainRun startFailWorld) = 0 :=
  start_error_warned_exit_zero startFailWorld "dial tcp: connection refused"
    rfl (Or.inl rfl) rfl rfl rfl rfl rfl ⟨_, rfl⟩ rfl

/-- Claim C3: when the configured lists have equal length, some apiVersion
entry cannot be parsed into a group and version and every earlier startup
step succeeds, the run ends in a fatal startup error and never reaches the
adapter construction and Start: the adapter fails to start rather than
running with the remaining descriptors. -/
theorem unresolvable_group_version_fatal (w : World) (v : String)
    (hv : v ∈ w.env.ApiVersion)
    (he : (ParseGroupVersion v).isOk = false)
    (hk : w.env.Kind.length = w.env.ApiVersion.length)
    (hc : w.env.Controller.length = w.env.ApiVersion.length)
    (h1 : w.envErr = none)
    (h2 : w.loggingParseErr = none ∨ w.loggingFallbackErr = none)
    (h3 : w.metricsParseErr = none) (h4 : w.updateExporterErr = none)
    (h5 : w.buildConfigErr = none) (h6 : w.dynamicClientErr = none)
    (h7 : w.cloudEventsErr = none) :
    mainRun w = .fatalError ∧ mainRun w ≠ .ranAdapter := by
  have hb := buildGVRCs_fatal_of_parse_error w.env.ApiVersion w.env.Kind
    w.env.Controller hk hc v hv he
  have hm : mainRun w = .fatalError := by
    unfold mainRun
    rcases h2 with h2 | h2 <;>
      simp [h1, h2, h3, h4, h5, h6, h7, hb, statsReporterOkAtStart]
  exact ⟨hm, by rw [hm]; decide⟩

/-- Claim C3 witness at a concrete unparsable apiVersion entry. -/
theorem unresolvable_group_version_fatal_witness :
    mainRun badParseWorld = .fatalError ∧
    mainRun badParseWorld ≠ .ranAdapter :=
  unresolvable_group_version_fatal badParseWorld "bad/worse/worst"
    (by decide) rfl rfl rfl rfl (Or.inl rfl) rfl rfl rfl rfl rfl

/-- Claim C4 counterexample: with one apiVersion entry but two kinds and two
controller flags the parallel lists have unequal lengths, yet the loop
completes, produces a GVRC list from the mismatched input, and the run
reaches Start: startup does not fail. -/
theorem mismatched_lengths_can_start_counterexample :
    mismatchedWorld.env.ApiVersion.length = 1 ∧
    mismatchedWorld.env.Kind.length = 2 ∧
    mismatchedWorld.env.Controller.length = 2 ∧
    buildGVRCs mismatchedWorld.env.ApiVersion mismatchedWorld.env.Kind
        mismatchedWorld.env.Controller =
      .ok [{ GVR := { group := "", version := "v1", resource := "pods" },
             Controller := false }] ∧
    mainRun mismatchedWorld = .ranAdapter := by
  refine ⟨rfl, rfl, rfl, rfl, rfl⟩

/-- Claim C4 amended: startup fails before any watch source is created
exactly when the apiVersion list is strictly longer than the kind list or
the controller list, by an out of range index or an earlier fatal parse
failure; when the apiVersion list is not longer, a length mismatch is
silently accepted and only the first entries are used. -/
theorem apiversion_longer_fails_startup (w : World)
    (h : w.env.Kind.length < w.env.ApiVersion.length ∨
         w.env.Controller.length < w.env.ApiVersion.length) :
    (∀ l, buildGVRCs w.env.ApiVersion w.env.Kind w.env.Controller ≠
      .ok l) ∧
    mainRun w ≠ .ranAdapter := by
  have hb := buildGVRCs_not_ok_of_short w.env.ApiVersion w.env.Kind
    w.env.Controller h
  refine ⟨hb, fun hr => ?_⟩
  obtain ⟨l, hl⟩ := mainRun_ran_needs_build_ok w hr
  exact hb l hl

/-- Claim C4 amended witness: two apiVersion entries with one kind never
reach Start. -/
theorem apiversion_longer_fails_startup_witness :
    mainRun shortKindWorld = .panicked ∧
    mainRun shortKindWorld ≠ .ranAdapter :=
  ⟨rfl, (apiversion_longer_fails_startup shortKindWorld
    (Or.inl (by decide))).2⟩

end cmd
